import Mathlib

/-!
Verification of the sahyogi prompt-construction and response-normalization
pipelines (generate_analogy.py and personalized_exercise.py).

Python strings are modelled as Lean String (prompt construction) and as
List Char (character-level scanning in the response parser). The external
generative-model collaborator is modelled as an oracle
Gen := String → Except String String; an Except.error models a raised
exception whose str(e) is the payload. Each pipeline function additionally
returns the list of prompts it sent to the oracle, so that claims about
the number of model invocations are statable.
-/

/-! ### Python string primitives -/

/-- Model of Python str.lower (ASCII, which covers all classifier keywords). -/
def to_lower_str (s : String) : String :=
  String.mk (s.data.map Char.toLower)

/-- Characters stripped by Python str.strip(). -/
def is_py_space (c : Char) : Bool :=
  c = ' ' || c = '\t' || c = '\n' || c = '\r' || c = '\x0b' || c = '\x0c'

/-- Model of Python str.strip() on a character list. -/
def py_strip (cs : List Char) : List Char :=
  ((cs.dropWhile is_py_space).reverse.dropWhile is_py_space).reverse

/-- Model of Python str.strip() on a String. -/
def py_strip_str (s : String) : String :=
  String.mk (py_strip s.data)

/-- Model of the Python substring test pat in s (characters). -/
def contains_sub : List Char → List Char → Bool
  | [], pat => pat.isEmpty
  | cs@(_ :: rest), pat => pat.isPrefixOf cs || contains_sub rest pat

/-- Model of the Python substring test pat in s (strings). -/
def str_contains (s pat : String) : Bool :=
  contains_sub s.data pat.data

/-- Model of Python str.split(given one separator character), keeping empty pieces. -/
def split_nl : List Char → List (List Char)
  | [] => [[]]
  | c :: cs =>
    if c = '\n' then [] :: split_nl cs
    else
      match split_nl cs with
      | l :: ls => (c :: l) :: ls
      | [] => [[c]]

/-- Index of the first occurrence of a character, as in Python str.find
(none models the -1 result). -/
def find_aux (c : Char) : List Char → Option Nat
  | [] => none
  | x :: xs => if x = c then some 0 else (find_aux c xs).map (· + 1)

/-- Index of the last occurrence of a character, as in Python str.rfind
(none models the -1 result). -/
def rfind_aux (c : Char) : List Char → Option Nat
  | [] => none
  | x :: xs =>
    match rfind_aux c xs with
    | some i => some (i + 1)
    | none => if x = c then some 0 else none

/-! ### JSON values and a model of json.loads

The Json type models the Python objects produced by json.loads: null, bool,
int, str, list, dict (a dict is the ordered association list of its
members; duplicate keys resolve to the last binding, as in Python). The
parser loads accepts a core subset of JSON (no escape sequences inside
strings, integer numerals); it consumes optional surrounding whitespace and
rejects trailing garbage, as json.loads does. -/

inductive Json where
  | null : Json
  | bool : Bool → Json
  | num : Int → Json
  | str : String → Json
  | arr : List Json → Json
  | obj : List (String × Json) → Json

/-- JSON insignificant whitespace characters. -/
def is_json_ws (c : Char) : Bool :=
  c = ' ' || c = '\n' || c = '\t' || c = '\r'

/-- Drop leading JSON whitespace. -/
def skip_ws : List Char → List Char
  | [] => []
  | c :: cs => if is_json_ws c then skip_ws cs else c :: cs

/-- Parse the remainder of a JSON string literal after the opening quote;
escape sequences are outside the modelled subset. -/
def parse_str_aux : List Char → Option (List Char × List Char)
  | [] => none
  | '"' :: rest => some ([], rest)
  | '\\' :: _ => none
  | c :: rest =>
    match parse_str_aux rest with
    | some (s, r) => some (c :: s, r)
    | none => none

/-- Accumulate decimal digits into a Nat. -/
def digits_to_nat (acc : Nat) : List Char → Nat
  | [] => acc
  | c :: cs => digits_to_nat (acc * 10 + (c.toNat - 48)) cs

/-- Parse a nonempty run of decimal digits. -/
def parse_nat (cs : List Char) : Option (Nat × List Char) :=
  match cs.takeWhile Char.isDigit with
  | [] => none
  | ds => some (digits_to_nat 0 ds, cs.dropWhile Char.isDigit)

mutual

/-- Parse one JSON value (fuel-indexed recursion). -/
def parse_val : Nat → List Char → Option (Json × List Char)
  | 0, _ => none
  | fuel + 1, cs =>
    match skip_ws cs with
    | [] => none
    | c :: rest =>
      if c = '{' then
        match skip_ws rest with
        | d :: rest2 =>
          if d = '}' then some (Json.obj [], rest2)
          else
            match parse_members fuel (d :: rest2) with
            | some (kvs, rest3) => some (Json.obj kvs, rest3)
            | none => none
        | [] => none
      else if c = '[' then
        match skip_ws rest with
        | d :: rest2 =>
          if d = ']' then some (Json.arr [], rest2)
          else
            match parse_elems fuel (d :: rest2) with
            | some (vs, rest3) => some (Json.arr vs, rest3)
            | none => none
        | [] => none
      else if c = '"' then
        match parse_str_aux rest with
        | some (s, rest2) => some (Json.str (String.mk s), rest2)
        | none => none
      else if c = 't' then
        match rest with
        | 'r' :: 'u' :: 'e' :: rest2 => some (Json.bool true, rest2)
        | _ => none
      else if c = 'f' then
        match rest with
        | 'a' :: 'l' :: 's' :: 'e' :: rest2 => some (Json.bool false, rest2)
        | _ => none
      else if c = 'n' then
        match rest with
        | 'u' :: 'l' :: 'l' :: rest2 => some (Json.null, rest2)
        | _ => none
      else if c = '-' then
        match parse_nat rest with
        | some (n, rest2) => some (Json.num (-(n : Int)), rest2)
        | none => none
      else
        match parse_nat (c :: rest) with
        | some (n, rest2) => some (Json.num (n : Int), rest2)
        | none => none

/-- Parse the members of a JSON object after its opening brace. -/
def parse_members : Nat → List Char → Option (List (String × Json) × List Char)
  | 0, _ => none
  | fuel + 1, cs =>
    match skip_ws cs with
    | c :: rest =>
      if c = '"' then
        match parse_str_aux rest with
        | some (k, rest2) =>
          match skip_ws rest2 with
          | d :: rest3 =>
            if d = ':' then
              match parse_val fuel rest3 with
              | some (v, rest4) =>
                match skip_ws rest4 with
                | e :: rest5 =>
                  if e = ',' then
                    match parse_members fuel rest5 with
                    | some (kvs, rest6) => some ((String.mk k, v) :: kvs, rest6)
                    | none => none
                  else if e = '}' then some ([(String.mk k, v)], rest5)
                  else none
                | [] => none
              | none => none
            else none
          | [] => none
        | none => none
      else none
    | [] => none

/-- Parse the elements of a JSON array after its opening bracket. -/
def parse_elems : Nat → List Char → Option (List Json × List Char)
  | 0, _ => none
  | fuel + 1, cs =>
    match parse_val fuel cs with
    | some (v, rest) =>
      match skip_ws rest with
      | c :: rest2 =>
        if c = ',' then
          match parse_elems fuel rest2 with
          | some (vs, rest3) => some (v :: vs, rest3)
          | none => none
        else if c = ']' then some ([v], rest2)
        else none
      | [] => none
    | none => none

end

/-- Model of json.loads: parse one value, allow trailing whitespace only. -/
def loads (cs : List Char) : Option Json :=
  match parse_val (cs.length + 1) cs with
  | some (v, rest) => if skip_ws rest = [] then some v else none
  | none => none

/-- Model of Python dict.get(k, d) for a dict built from an ordered member
list: the last binding of a key wins, as in Python dict construction. -/
def py_dict_get (kvs : List (String × Json)) (k : String) (d : Json) : Json :=
  match kvs.reverse.find? (fun p => p.1 = k) with
  | some p => p.2
  | none => d

/-! ### External collaborator oracle -/

/-- Model of the generative-model collaborator: one prompt in, either raw
text out or a raised exception carrying its message. -/
def Gen : Type := String → Except String String

/-! ### Data model (generate_analogy.py) -/

structure StudentContext where
  student_id : String
  name : String
  grade : Int
  region : String
  local_language : String
  cultural_context : String
  familiar_concepts : List String

structure AnalogyRequest where
  student_context : StudentContext
  question : String
  subject : String
  topic : String
  complexity_level : String
  preferred_language : String

/-- One bucket of the static regional-contexts table. -/
structure RegionalInfo where
  common_concepts : List String
  occupations : List String
  festivals : List String
  food : List String

def rural_india_info : RegionalInfo :=
  { common_concepts := ["farming", "village market", "bullock cart", "monsoon", "harvest", "cattle", "well", "temple"]
    occupations := ["farmer", "shopkeeper", "teacher", "blacksmith", "weaver"]
    festivals := ["Diwali", "Holi", "harvest festival"]
    food := ["rice", "wheat", "dal", "curry", "chapati"] }

def urban_india_info : RegionalInfo :=
  { common_concepts := ["traffic", "metro", "mall", "apartment", "office", "smartphone", "internet"]
    occupations := ["engineer", "doctor", "business person", "teacher", "driver"]
    festivals := ["Diwali", "Christmas", "New Year"]
    food := ["street food", "restaurant", "fast food", "traditional meals"] }

def tribal_areas_info : RegionalInfo :=
  { common_concepts := ["forest", "tribal dance", "traditional crafts", "nature", "community gathering"]
    occupations := ["hunter", "gatherer", "craft maker", "traditional healer"]
    festivals := ["harvest ceremonies", "tribal festivals"]
    food := ["forest produce", "traditional recipes", "wild vegetables"] }

/-- The regional_contexts table of LocalAnalogyService, in source order. -/
def regional_contexts : List (String × RegionalInfo) :=
  [("rural_india", rural_india_info),
   ("urban_india", urban_india_info),
   ("tribal_areas", tribal_areas_info)]

/-- Model of self.regional_contexts.get(key, self.regional_contexts["rural_india"]). -/
def regional_contexts_get (k : String) : RegionalInfo :=
  match regional_contexts.find? (fun p => p.1 = k) with
  | some p => p.2
  | none => rural_india_info

/-- Model of LocalAnalogyService._get_cultural_key. The source lowercases
both arguments but the branch conditions read only the lowercased
cultural_context; region_lower is computed and never used. -/
def get_cultural_key (cultural_context region : String) : String :=
  let cultural_lower := to_lower_str cultural_context
  let region_lower := to_lower_str region
  if str_contains cultural_lower "tribal" || str_contains cultural_lower "adivasi" then
    "tribal_areas"
  else if str_contains cultural_lower "urban" || str_contains cultural_lower "city" then
    "urban_india"
  else
    "rural_india"

/-! ### Prompt texts (generate_analogy.py)

Each prompt is the Python f-string rendered as explicit concatenation;
literal text, indentation and blank lines are carried over byte for byte. -/

/-- Language-detection prompt of _process_question. -/
def detection_prompt (question : String) : String :=
  "\n            Analyze the following text and determine the language it\x27s written in:\n            \"" ++
  question ++
  "\"\n            \n            Respond with just the language name (e.g., \"Hindi\", \"Bengali\", \"Tamil\", \"English\", etc.)\n            "

/-- Question-translation prompt of _process_question. -/
def translation_prompt (detected_language question : String) : String :=
  "\n                Translate the following " ++ detected_language ++
  " text to English:\n                \"" ++ question ++
  "\"\n                \n                Provide only the English translation without any additional text.\n                "

/-- Analogy-generation prompt of _create_analogy. -/
def create_analogy_prompt (req : AnalogyRequest) (translated_question : String) : String :=
  let context := req.student_context
  let cultural_key := get_cultural_key context.cultural_context context.region
  let regional_info := regional_contexts_get cultural_key
  "\n        You are an expert teacher who specializes in creating culturally relevant analogies for students. \n        \n        STUDENT CONTEXT:\n        - Name: " ++
  context.name ++
  "\n        - Grade: " ++ toString context.grade ++
  "\n        - Region: " ++ context.region ++
  "\n        - Local Language: " ++ context.local_language ++
  "\n        - Cultural Context: " ++ context.cultural_context ++
  "\n        - Familiar Concepts: " ++ String.intercalate ", " context.familiar_concepts ++
  "\n        \n        REGIONAL/CULTURAL INFORMATION:\n        - Common local concepts: " ++
  String.intercalate ", " regional_info.common_concepts ++
  "\n        - Local occupations: " ++ String.intercalate ", " regional_info.occupations ++
  "\n        - Local festivals: " ++ String.intercalate ", " regional_info.festivals ++
  "\n        - Local food: " ++ String.intercalate ", " regional_info.food ++
  "\n        \n        QUESTION TO EXPLAIN: \"" ++ translated_question ++
  "\"\n        SUBJECT: " ++ req.subject ++
  "\n        TOPIC: " ++ req.topic ++
  "\n        COMPLEXITY LEVEL: " ++ req.complexity_level ++
  "\n        \n        TASK:\n        Create a detailed, culturally relevant analogy that explains the concept in the question using:\n        1. Local and familiar concepts from the student\x27s environment\n        2. Everyday experiences the student can relate to\n        3. Simple language appropriate for grade " ++
  toString context.grade ++
  "\n        4. Step-by-step explanation building from familiar to unfamiliar\n        5. Examples from local culture, geography, or daily life\n        \n        STRUCTURE YOUR RESPONSE AS:\n        1. **Simple Explanation**: Start with a basic explanation in simple terms\n        2. **Local Analogy**: Provide a detailed analogy using familiar local concepts\n        3. **Connection**: Clearly connect the analogy back to the original concept\n        4. **Example**: Give a practical example from the student\x27s local environment\n        5. **Summary**: Summarize the key learning points\n        \n        Make sure the analogy is:\n        - Culturally sensitive and appropriate\n        - Age-appropriate for grade " ++
  toString context.grade ++
  "\n        - Easy to understand and remember\n        - Relevant to the student\x27s daily life experience\n        "

/-- Answer-translation prompt of _translate_response. -/
def translate_out_prompt (preferred_language response : String) : String :=
  "\n                Translate the following English text to " ++ preferred_language ++
  ", maintaining the structure and cultural references:\n                \n                \"" ++
  response ++
  "\"\n                \n                Make sure to:\n                1. Keep the educational structure intact\n                2. Maintain cultural references and analogies\n                3. Use appropriate language level for a grade school student\n                4. Preserve the key learning concepts\n                \n                Provide only the translated text.\n                "

/-! ### Language pipeline (generate_analogy.py) -/

/-- Model of LocalAnalogyService._process_question. Returns the
(detected language, translated question) pair together with the prompts
sent to the model. Any failed model call is absorbed: the except branch
returns ("English", question). The preferred_language parameter is unused,
as in the source. -/
def process_question (gen : Gen) (question preferred_language : String) :
    (String × String) × List String :=
  let dp := detection_prompt question
  match gen dp with
  | Except.error _ => (("English", question), [dp])
  | Except.ok dtext =>
    let detected_language := py_strip_str dtext
    if to_lower_str detected_language ≠ "english" then
      let tp := translation_prompt detected_language question
      match gen tp with
      | Except.error _ => (("English", question), [dp, tp])
      | Except.ok ttext => ((detected_language, py_strip_str ttext), [dp, tp])
    else
      ((detected_language, question), [dp])

/-- Model of LocalAnalogyService._translate_response. The model is invoked
only when both the preferred and the detected language are non-English; a
failed call is absorbed and the untranslated response returned. -/
def translate_response (gen : Gen) (response preferred_language detected_language : String) :
    String × List String :=
  if to_lower_str preferred_language ≠ "english" ∧ to_lower_str detected_language ≠ "english" then
    let tp := translate_out_prompt preferred_language response
    match gen tp with
    | Except.error _ => (response, [tp])
    | Except.ok ttext => (py_strip_str ttext, [tp])
  else
    (response, [])

/-- The failure envelope built by the catch-all handlers of
generate_analogy and generate_exercises: exactly the keys success, error,
student_id. -/
def failure_envelope (e student_id : String) : Json :=
  Json.obj [("success", Json.bool false), ("error", Json.str e), ("student_id", Json.str student_id)]

/-- Model of LocalAnalogyService.generate_analogy. The now argument stands
for datetime.now().isoformat(). The only step whose exception reaches the
catch-all handler is the model call of _create_analogy (the language
sub-steps absorb their own failures), so that call is the match below. -/
def generate_analogy (gen : Gen) (now : String) (req : AnalogyRequest) : Json × List String :=
  let pq := process_question gen req.question req.preferred_language
  let detected_language := pq.1.1
  let translated_question := pq.1.2
  let ap := create_analogy_prompt req translated_question
  match gen ap with
  | Except.error e =>
    (failure_envelope e req.student_context.student_id, pq.2 ++ [ap])
  | Except.ok analogy_response =>
    let tr := translate_response gen analogy_response req.preferred_language detected_language
    (Json.obj
      [("success", Json.bool true),
       ("student_id", Json.str req.student_context.student_id),
       ("original_question", Json.str req.question),
       ("detected_language", Json.str detected_language),
       ("translated_question", Json.str translated_question),
       ("subject", Json.str req.subject),
       ("topic", Json.str req.topic),
       ("analogy", Json.str tr.1),
       ("cultural_context", Json.str req.student_context.cultural_context),
       ("region", Json.str req.student_context.region),
       ("generated_at", Json.str now)],
     pq.2 ++ [ap] ++ tr.2)

/-! ### Data model (personalized_exercise.py) -/

structure StudentProfile where
  student_id : String
  name : String
  grade : Int
  learning_level : String
  learning_style : String
  weaknesses : List String
  strengths : List String
  language_preference : String

structure ExerciseRequest where
  student_profile : StudentProfile
  subject : String
  topic : String
  difficulty_level : String
  exercise_count : Int
  exercise_types : List String

/-- Exercise-generation prompt of
PersonalizedExerciseService._create_exercise_prompt. Literal braces of the
described JSON shape (the doubled braces of the f-string) are written with
hexadecimal escapes. -/
def create_exercise_prompt (req : ExerciseRequest) : String :=
  let student := req.student_profile
  "\n        You are an expert educational content creator. Generate " ++
  toString req.exercise_count ++
  " personalized practice exercises for a student with the following profile:\n\n        STUDENT PROFILE:\n        - Name: " ++
  student.name ++
  "\n        - Grade: " ++ toString student.grade ++
  "\n        - Learning Level: " ++ student.learning_level ++
  "\n        - Learning Style: " ++ student.learning_style ++
  "\n        - Primary Language: " ++ student.language_preference ++
  "\n        - Weaknesses: " ++ String.intercalate ", " student.weaknesses ++
  "\n        - Strengths: " ++ String.intercalate ", " student.strengths ++
  "\n\n        EXERCISE REQUIREMENTS:\n        - Subject: " ++ req.subject ++
  "\n        - Topic: " ++ req.topic ++
  "\n        - Difficulty Level: " ++ req.difficulty_level ++
  "\n        - Exercise Types: " ++ String.intercalate ", " req.exercise_types ++
  "\n\n        PERSONALIZATION GUIDELINES:\n        1. Target the student\x27s identified weaknesses while building on their strengths\n        2. Adapt to their learning style:\n           - Visual: Include diagrams, charts, or visual elements\n           - Auditory: Include sound-based or rhythm-based elements\n           - Kinesthetic: Include hands-on or movement-based activities\n           - Reading/Writing: Focus on text-based exercises\n        3. Use appropriate complexity for their learning level\n        4. If language preference is not English, provide translations or explanations in their preferred language\n        5. Create scaffolded exercises that gradually increase in difficulty\n\n        OUTPUT FORMAT:\n        Provide the response as a JSON object with the following structure:\n        \x7b\n            \"exercises\": [\n                \x7b\n                    \"id\": 1,\n                    \"type\": \"exercise_type\",\n                    \"question\": \"exercise question/prompt\",\n                    \"options\": [\"option1\", \"option2\", \"option3\", \"option4\"] (for multiple choice),\n                    \"correct_answer\": \"correct answer or explanation\",\n                    \"explanation\": \"detailed explanation of the solution\",\n                    \"difficulty\": \"beginner/intermediate/advanced\",\n                    \"learning_objective\": \"what this exercise aims to teach\",\n                    \"personalization_notes\": \"how this addresses student\x27s specific needs\"\n                \x7d\n            ]\n        \x7d\n\n        Generate exercises that are engaging, age-appropriate, and specifically designed to help this student overcome their weaknesses while leveraging their learning style.\n        "

/-- One synthesized record of _create_fallback_exercises, for the line at
running count n (Python builds this dict with id = exercise_count + 1). -/
def fallback_record (req : ExerciseRequest) (n : Nat) (line : List Char) : Json :=
  Json.obj
    [("id", Json.num ((n : Int) + 1)),
     ("type", Json.str (match req.exercise_types with
       | t :: _ => t
       | [] => "short_answer")),
     ("question", Json.str (String.mk line)),
     ("correct_answer", Json.str "Answer will be provided by teacher"),
     ("explanation", Json.str "Detailed explanation will be provided"),
     ("difficulty", Json.str req.difficulty_level),
     ("learning_objective", Json.str ("Practice " ++ req.topic ++ " concepts")),
     ("personalization_notes", Json.str ("Adapted for " ++ req.student_profile.learning_style ++ " learning style"))]

/-- The line loop of _create_fallback_exercises: n is the running count of
emitted records; a line is emitted only when its stripped form is nonempty
and the running count is still below req.exercise_count. -/
def fallback_go (req : ExerciseRequest) : List (List Char) → Nat → List Json
  | [], _ => []
  | l :: ls, n =>
    let line := py_strip l
    if line ≠ [] ∧ (n : Int) < req.exercise_count then
      fallback_record req n line :: fallback_go req ls (n + 1)
    else
      fallback_go req ls n

/-- Model of PersonalizedExerciseService._create_fallback_exercises. -/
def create_fallback_exercises (text : List Char) (req : ExerciseRequest) : List Json :=
  fallback_go req (split_nl (py_strip text)) 0

/-- The brace-delimited slice of _parse_exercises_response: some slice when
start_idx != -1 and end_idx != 0, none otherwise. The slice is
response_text[start_idx : rfind + 1] with Python slicing semantics. -/
def json_slice (response_text : List Char) : Option (List Char) :=
  match find_aux '{' response_text, rfind_aux '}' response_text with
  | some i, some j => some ((response_text.drop i).take (j + 1 - i))
  | _, _ => none

/-- Model of PersonalizedExerciseService._parse_exercises_response. The
returned value is the Python object bound to the exercises key (a list in
every intended run). A loads failure is the caught json.JSONDecodeError and
falls back; the some-but-not-an-object case models the uncaught
AttributeError of calling .get on a non-dict, which
parse_exercises_response_total below proves unreachable because the slice
always starts with an opening brace. -/
def parse_exercises_response (response_text : List Char) (req : ExerciseRequest) : Option Json :=
  match json_slice response_text with
  | some json_str =>
    match loads json_str with
    | some (Json.obj kvs) => some (py_dict_get kvs "exercises" (Json.arr []))
    | some _ => none
    | none => some (Json.arr (create_fallback_exercises response_text req))
  | none => some (Json.arr (create_fallback_exercises response_text req))

/-- Model of PersonalizedExerciseService.generate_exercises. The none case
of the parser models the uncaught AttributeError; it is proved unreachable
(parse_exercises_response_total), and its envelope message is a placeholder
that no theorem relies on. -/
def generate_exercises (gen : Gen) (now : String) (req : ExerciseRequest) : Json × List String :=
  let prompt := create_exercise_prompt req
  match gen prompt with
  | Except.error e =>
    (failure_envelope e req.student_profile.student_id, [prompt])
  | Except.ok response_text =>
    match parse_exercises_response response_text.data req with
    | some exercises =>
      (Json.obj
        [("success", Json.bool true),
         ("student_id", Json.str req.student_profile.student_id),
         ("subject", Json.str req.subject),
         ("topic", Json.str req.topic),
         ("exercises", exercises),
         ("generated_at", Json.str now),
         ("personalization_factors", Json.obj
           [("learning_level", Json.str req.student_profile.learning_level),
            ("learning_style", Json.str req.student_profile.learning_style),
            ("targeted_weaknesses", Json.arr (req.student_profile.weaknesses.map Json.str))])],
       [prompt])
    | none =>
      (failure_envelope "AttributeError" req.student_profile.student_id, [prompt])

/-! ### Inbound request mappings and endpoint validation

The inbound JSON payloads are nested mappings; a field that may be absent
is an Option. The whole payload being absent or empty (Python falsy data)
is the none case of the outer Option. -/

structure StudentContextData where
  student_id : Option String
  name : Option String
  grade : Option Int
  region : Option String
  local_language : Option String
  cultural_context : Option String
  familiar_concepts : Option (List String)

structure AnalogyData where
  student_context : Option StudentContextData
  question : Option String
  subject : Option String
  topic : Option String
  complexity_level : Option String
  preferred_language : Option String

structure StudentProfileData where
  student_id : Option String
  name : Option String
  grade : Option Int
  learning_level : Option String
  learning_style : Option String
  weaknesses : Option (List String)
  strengths : Option (List String)
  language_preference : Option String

structure ExerciseData where
  student_profile : Option StudentProfileData
  subject : Option String
  topic : Option String
  difficulty_level : Option String
  exercise_count : Option Int
  exercise_types : Option (List String)

/-- Model of the endpoint generate_local_analogy: either the immediate
failure dict (when data is falsy or student_context or question is absent)
or the AnalogyRequest built with the documented defaults. -/
def generate_local_analogy (data : Option AnalogyData) : Except Json AnalogyRequest :=
  match data with
  | none =>
    Except.error (Json.obj
      [("success", Json.bool false),
       ("error", Json.str "Student context and question are required")])
  | some d =>
    match d.student_context, d.question with
    | some context_data, some question =>
      Except.ok
        { student_context :=
            { student_id := context_data.student_id.getD ""
              name := context_data.name.getD ""
              grade := context_data.grade.getD 1
              region := context_data.region.getD "Rural India"
              local_language := context_data.local_language.getD "Hindi"
              cultural_context := context_data.cultural_context.getD "rural"
              familiar_concepts := context_data.familiar_concepts.getD [] }
          question := question
          subject := d.subject.getD "General"
          topic := d.topic.getD "Basic Concepts"
          complexity_level := d.complexity_level.getD "simple"
          preferred_language := d.preferred_language.getD "English" }
    | _, _ =>
      Except.error (Json.obj
        [("success", Json.bool false),
         ("error", Json.str "Student context and question are required")])

/-- Model of the endpoint generate_personalized_exercises: either the
immediate failure response with HTTP status 400 (when data is falsy or
student_profile is absent) or the ExerciseRequest built with the
documented defaults. -/
def generate_personalized_exercises (data : Option ExerciseData) :
    Except (Json × Nat) ExerciseRequest :=
  match data with
  | none =>
    Except.error (Json.obj
      [("success", Json.bool false),
       ("error", Json.str "Student profile is required")], 400)
  | some d =>
    match d.student_profile with
    | some profile_data =>
      Except.ok
        { student_profile :=
            { student_id := profile_data.student_id.getD ""
              name := profile_data.name.getD ""
              grade := profile_data.grade.getD 1
              learning_level := profile_data.learning_level.getD "beginner"
              learning_style := profile_data.learning_style.getD "visual"
              weaknesses := profile_data.weaknesses.getD []
              strengths := profile_data.strengths.getD []
              language_preference := profile_data.language_preference.getD "English" }
          subject := d.subject.getD "Mathematics"
          topic := d.topic.getD "Basic Operations"
          difficulty_level := d.difficulty_level.getD "beginner"
          exercise_count := d.exercise_count.getD 5
          exercise_types := d.exercise_types.getD ["multiple_choice"] }
    | none =>
      Except.error (Json.obj
        [("success", Json.bool false),
         ("error", Json.str "Student profile is required")], 400)

/-- The analogy endpoint flow (validation, then the service call of the
main block): when validation fails the envelope is returned and the model
is never consulted, so the prompt trace is empty. -/
def run_analogy_endpoint (gen : Gen) (now : String) (data : Option AnalogyData) :
    Json × List String :=
  match generate_local_analogy data with
  | Except.error env => (env, [])
  | Except.ok req => generate_analogy gen now req

/-- The exercise endpoint flow (validation, then the service call): when
validation fails the 400 response is returned and the model is never
consulted, so the prompt trace is empty. -/
def run_exercise_endpoint (gen : Gen) (now : String) (data : Option ExerciseData) :
    ((Json × Nat) ⊕ Json) × List String :=
  match generate_personalized_exercises data with
  | Except.error resp => (Sum.inl resp, [])
  | Except.ok req =>
    let r := generate_exercises gen now req
    (Sum.inr r.1, r.2)

/-! ### Supporting lemmas and claim theorems -/

/-- Amended classification rule, following the amended claim wording: only
the lowercased cultural_context is consulted; tribal markers win over urban
markers; the region argument plays no role. -/
def cultural_key_spec (cultural_context : String) : String :=
  let c := to_lower_str cultural_context
  if str_contains c "tribal" || str_contains c "adivasi" then "tribal_areas"
  else if str_contains c "urban" || str_contains c "city" then "urban_india"
  else "rural_india"

/-- Counterexample to claim C1: the classifier does not consult the region
string, so cultural_context Urban with region Tribal Belt yields urban_india,
not the tribal_areas the claim asserts. -/
theorem claim_C1_counterexample :
    get_cultural_key "Urban" "Tribal Belt" ≠ "tribal_areas" ∧
    get_cultural_key "Urban" "Tribal Belt" = "urban_india" := by
  constructor
  · decide
  · rfl

/-- Claim C1 (amended): the classifier lowercases both strings but tests
only the cultural_context: tribal_areas when it contains tribal or adivasi,
else urban_india when it contains urban or city, else rural_india; the
region string is ignored, and the Urban with Tribal Belt example yields
urban_india. -/
theorem claim_C1_amended :
    (∀ cultural_context region : String,
      get_cultural_key cultural_context region = cultural_key_spec cultural_context) ∧
    get_cultural_key "Urban" "Tribal Belt" = "urban_india" :=
  ⟨fun _ _ => rfl, rfl⟩

/-- Claim C10: the classifier always returns a key of the
regional-contexts table, so the rural_india default of the table lookup in
the analogy builder is unreachable: the lookup always finds an entry and
the get returns that entry. -/
theorem claim_C10_key_in_table :
    ∀ cultural_context region : String,
      ∃ p, regional_contexts.find? (fun q => q.1 = get_cultural_key cultural_context region) = some p ∧
        regional_contexts_get (get_cultural_key cultural_context region) = p.2 := by
  intro cc r
  have hcases : get_cultural_key cc r = "tribal_areas" ∨ get_cultural_key cc r = "urban_india" ∨
      get_cultural_key cc r = "rural_india" := by
    unfold get_cultural_key
    by_cases h1 : (str_contains (to_lower_str cc) "tribal" || str_contains (to_lower_str cc) "adivasi") = true
    · simp [h1]
    · by_cases h2 : (str_contains (to_lower_str cc) "urban" || str_contains (to_lower_str cc) "city") = true
      · simp [h1, h2]
      · simp [h1, h2]
  rcases hcases with h | h | h <;> rw [h] <;> exact ⟨_, rfl, rfl⟩

/-- Claim C7: the translate-out step invokes the model only when both the
preferred and the detected language are non-English (case-insensitive);
otherwise the generated answer is returned unchanged with no model call,
and when both are non-English exactly one translation call is issued. -/
theorem claim_C7_translate_out :
    ∀ (gen : Gen) (response preferred_language detected_language : String),
      ((to_lower_str preferred_language = "english" ∨ to_lower_str detected_language = "english") →
        translate_response gen response preferred_language detected_language = (response, [])) ∧
      ((to_lower_str preferred_language ≠ "english" ∧ to_lower_str detected_language ≠ "english") →
        (translate_response gen response preferred_language detected_language).2 =
          [translate_out_prompt preferred_language response]) := by
  intro gen response pl dl
  constructor
  · intro h
    unfold translate_response
    rw [if_neg]
    intro hcontra
    rcases h with h | h
    · exact hcontra.1 h
    · exact hcontra.2 h
  · intro h
    unfold translate_response
    rw [if_pos h]
    cases hg : gen (translate_out_prompt pl response) <;> simp [hg]

/-- Oracle that fails on every prompt, used by the witnesses. -/
def gen_fail : Gen := fun _ => Except.error "model unavailable"

/-- Witness for claim C7: detected English with preferred Hindi leaves the
answer untranslated and issues no call. -/
theorem claim_C7_witness :
    translate_response gen_fail "the answer" "Hindi" "English" = ("the answer", []) :=
  (claim_C7_translate_out gen_fail "the answer" "Hindi" "English").1 (Or.inr (by decide))

/-- Claim C8: when the language-detection call fails, or detection succeeds
with a non-English language and the translate-in call fails, the language
sub-pipeline returns English together with the untranslated question. -/
theorem claim_C8_language_fallback :
    ∀ (gen : Gen) (question preferred_language : String),
      ((∃ e, gen (detection_prompt question) = Except.error e) ∨
       (∃ t e, gen (detection_prompt question) = Except.ok t ∧
         to_lower_str (py_strip_str t) ≠ "english" ∧
         gen (translation_prompt (py_strip_str t) question) = Except.error e)) →
      (process_question gen question preferred_language).1 = ("English", question) := by
  intro gen q pl h
  unfold process_question
  rcases h with ⟨e, he⟩ | ⟨t, e, ht, hne, he⟩
  · simp [he]
  · simp [ht, hne, he]

/-- Witness for claim C8: a failing detection call yields English and the
original question. -/
theorem claim_C8_witness :
    (process_question gen_fail "ye barish kyu hoti hai?" "hindi").1 =
      ("English", "ye barish kyu hoti hai?") :=
  claim_C8_language_fallback gen_fail "ye barish kyu hoti hai?" "hindi"
    (Or.inl ⟨"model unavailable", rfl⟩)

/-- Claim C9: prompt construction is deterministic. Re-running either
prompt builder on the same request yields an identical string, and the
prompts each orchestrator sends (its trace) do not depend on the ambient
timestamp, which only appears in the success envelope. -/
theorem claim_C9_prompt_deterministic :
    (∀ (req : AnalogyRequest) (translated_question : String),
      create_analogy_prompt req translated_question = create_analogy_prompt req translated_question) ∧
    (∀ req : ExerciseRequest, create_exercise_prompt req = create_exercise_prompt req) ∧
    (∀ (gen : Gen) (req : AnalogyRequest) (now now' : String),
      (generate_analogy gen now req).2 = (generate_analogy gen now' req).2) ∧
    (∀ (gen : Gen) (req : ExerciseRequest) (now now' : String),
      (generate_exercises gen now req).2 = (generate_exercises gen now' req).2) := by
  refine ⟨fun _ _ => rfl, fun _ => rfl, ?_, ?_⟩
  · intro gen req now now'
    unfold generate_analogy
    cases hg : gen (create_analogy_prompt req (process_question gen req.question req.preferred_language).1.2) <;>
      simp [hg]
  · intro gen req now now'
    unfold generate_exercises
    cases hg : gen (create_exercise_prompt req) with
    | error e => simp [hg]
    | ok t => cases hp : parse_exercises_response t.data req <;> simp [hg, hp]

/-- Concrete student context used by witnesses. -/
def w_student_context : StudentContext :=
  { student_id := "stu-1", name := "GURU", grade := 5, region := "north india",
    local_language := "hindi", cultural_context := "rural", familiar_concepts := ["farming"] }

/-- Concrete analogy request used by witnesses. -/
def w_analogy_req : AnalogyRequest :=
  { student_context := w_student_context, question := "ye barish kyu hoti hai?",
    subject := "environment", topic := "string", complexity_level := "simple",
    preferred_language := "hindi" }

/-- Concrete student profile used by witnesses. -/
def w_student_profile : StudentProfile :=
  { student_id := "stu-2", name := "GURU", grade := 5, learning_level := "beginner",
    learning_style := "visual", weaknesses := ["focus"],
    strengths := ["visualization", "creativity"], language_preference := "Hindi" }

/-- Concrete exercise request used by witnesses. -/
def w_exercise_req : ExerciseRequest :=
  { student_profile := w_student_profile, subject := "Mathematics", topic := "Basic Operations",
    difficulty_level := "beginner", exercise_count := 5, exercise_types := ["multiple_choice"] }

/-- Claim C5: an inbound mapping missing its required top-level key (the
student context or the question for the analogy endpoint, the student
profile for the exercise endpoint) yields the specific failure envelope
with an empty prompt trace, so the model collaborator is never called. -/
theorem claim_C5_missing_required_keys :
    ∀ (gen : Gen) (now : String) (adata : Option AnalogyData) (edata : Option ExerciseData),
      ((adata = none ∨ ∃ d, adata = some d ∧ (d.student_context = none ∨ d.question = none)) →
        run_analogy_endpoint gen now adata =
          (Json.obj [("success", Json.bool false),
            ("error", Json.str "Student context and question are required")], [])) ∧
      ((edata = none ∨ ∃ d, edata = some d ∧ d.student_profile = none) →
        run_exercise_endpoint gen now edata =
          (Sum.inl (Json.obj [("success", Json.bool false),
            ("error", Json.str "Student profile is required")], 400), [])) := by
  intro gen now adata edata
  constructor
  · intro h
    rcases h with rfl | ⟨d, rfl, h | h⟩
    · rfl
    · simp [run_analogy_endpoint, generate_local_analogy, h]
    · cases hc : d.student_context <;>
        simp [run_analogy_endpoint, generate_local_analogy, h, hc]
  · intro h
    rcases h with rfl | ⟨d, rfl, h⟩
    · rfl
    · simp [run_exercise_endpoint, generate_personalized_exercises, h]

/-- Concrete analogy payload missing the student_context key. -/
def w_analogy_data : Option AnalogyData :=
  some { student_context := none, question := some "ye barish kyu hoti hai?",
         subject := none, topic := none, complexity_level := none, preferred_language := none }

/-- Witness for claim C5: the payload without student_context and the
absent exercise payload each produce the immediate failure envelope and an
empty prompt trace. -/
theorem claim_C5_witness :
    run_analogy_endpoint gen_fail "2024-01-01T00:00:00" w_analogy_data =
      (Json.obj [("success", Json.bool false),
        ("error", Json.str "Student context and question are required")], []) ∧
    run_exercise_endpoint gen_fail "2024-01-01T00:00:00" none =
      (Sum.inl (Json.obj [("success", Json.bool false),
        ("error", Json.str "Student profile is required")], 400), []) :=
  ⟨(claim_C5_missing_required_keys gen_fail "2024-01-01T00:00:00" w_analogy_data none).1
      (Or.inr ⟨_, rfl, Or.inl rfl⟩),
   (claim_C5_missing_required_keys gen_fail "2024-01-01T00:00:00" w_analogy_data none).2
      (Or.inl rfl)⟩

/-- Claim C6: each orchestrator is a total function, and when the step
whose exception reaches the catch-all handler fails (the analogy or
exercise generation call; the language sub-steps absorb their own
failures), the returned envelope is exactly success false, error message,
student id and nothing else. -/
theorem claim_C6_failure_envelope :
    ∀ (gen : Gen) (now : String) (areq : AnalogyRequest) (ereq : ExerciseRequest) (e e' : String),
      (gen (create_analogy_prompt areq
          (process_question gen areq.question areq.preferred_language).1.2) = Except.error e →
        (generate_analogy gen now areq).1 = failure_envelope e areq.student_context.student_id) ∧
      (gen (create_exercise_prompt ereq) = Except.error e' →
        (generate_exercises gen now ereq).1 = failure_envelope e' ereq.student_profile.student_id) := by
  intro gen now areq ereq e e'
  constructor
  · intro h
    unfold generate_analogy
    simp [h]
  · intro h
    unfold generate_exercises
    simp [h]

/-- Witness for claim C6: a model that always raises makes both
orchestrators return exactly the three-field failure envelope. -/
theorem claim_C6_witness :
    (generate_analogy gen_fail "2024-01-01T00:00:00" w_analogy_req).1 =
      failure_envelope "model unavailable" "stu-1" ∧
    (generate_exercises gen_fail "2024-01-01T00:00:00" w_exercise_req).1 =
      failure_envelope "model unavailable" "stu-2" :=
  ⟨(claim_C6_failure_envelope gen_fail "2024-01-01T00:00:00" w_analogy_req w_exercise_req
      "model unavailable" "model unavailable").1 rfl,
   (claim_C6_failure_envelope gen_fail "2024-01-01T00:00:00" w_analogy_req w_exercise_req
      "model unavailable" "model unavailable").2 rfl⟩

/-! ### Lemmas about the brace slice -/

theorem find_aux_of_not_mem {c : Char} : ∀ {l : List Char}, c ∉ l → find_aux c l = none := by
  intro l h
  induction l with
  | nil => rfl
  | cons x xs ih =>
    simp only [List.mem_cons, not_or] at h
    simp [find_aux, if_neg (fun hx : x = c => h.1 hx.symm), ih h.2]

theorem find_aux_append {c : Char} {pre : List Char} (h : c ∉ pre) (rest : List Char) :
    find_aux c (pre ++ c :: rest) = some pre.length := by
  induction pre with
  | nil => simp [find_aux]
  | cons x xs ih =>
    simp only [List.mem_cons, not_or] at h
    simp [find_aux, if_neg (fun hx : x = c => h.1 hx.symm), ih h.2]

theorem rfind_aux_of_not_mem {c : Char} : ∀ {l : List Char}, c ∉ l → rfind_aux c l = none := by
  intro l h
  induction l with
  | nil => rfl
  | cons x xs ih =>
    simp only [List.mem_cons, not_or] at h
    simp [rfind_aux, ih h.2, if_neg (fun hx : x = c => h.1 hx.symm)]

theorem rfind_aux_append {c : Char} {post : List Char} (h : c ∉ post) (l : List Char) :
    rfind_aux c (l ++ c :: post) = some l.length := by
  induction l with
  | nil => simp [rfind_aux, rfind_aux_of_not_mem h]
  | cons x xs ih => simp [rfind_aux, ih]

/-- When the text decomposes as brace-free prefix, an object body between
one opening and one closing brace, and a closing-brace-free suffix, the
slice taken by the parser is exactly the body with its braces. -/
theorem json_slice_decomp (pre mid post : List Char)
    (hpre : '{' ∉ pre) (hpost : '}' ∉ post) :
    json_slice (pre ++ '{' :: (mid ++ '}' :: post)) = some ('{' :: (mid ++ ['}'])) := by
  have hfind : find_aux '{' (pre ++ '{' :: (mid ++ '}' :: post)) = some pre.length :=
    find_aux_append hpre _
  have hassoc : pre ++ '{' :: (mid ++ '}' :: post) = (pre ++ '{' :: mid) ++ '}' :: post := by
    simp
  have hrfind : rfind_aux '}' (pre ++ '{' :: (mid ++ '}' :: post)) =
      some (pre.length + (mid.length + 1)) := by
    rw [hassoc]
    have := rfind_aux_append hpost (pre ++ '{' :: mid)
    simpa using this
  unfold json_slice
  rw [hfind, hrfind]
  dsimp only
  have hdrop : (pre ++ '{' :: (mid ++ '}' :: post)).drop pre.length = '{' :: (mid ++ '}' :: post) :=
    List.drop_left pre _
  have harith : pre.length + (mid.length + 1) + 1 - pre.length = mid.length + 2 := by omega
  rw [hdrop, harith]
  have hsplit : '{' :: (mid ++ '}' :: post) = ('{' :: (mid ++ ['}'])) ++ post := by simp
  have hlen : ('{' :: (mid ++ ['}'])).length = mid.length + 2 := by simp
  rw [hsplit, ← hlen, List.take_left]

/-- When the text is missing an opening or a closing brace, no slice is
taken and the parser falls back. -/
theorem json_slice_none {text : List Char} (h : '{' ∉ text ∨ '}' ∉ text) :
    json_slice text = none := by
  unfold json_slice
  rcases h with h | h
  · rw [find_aux_of_not_mem h]
  · rw [rfind_aux_of_not_mem h]
    cases find_aux '{' text <;> rfl

/-! ### Lemmas about the fallback parser -/

/-- Sequentially numbered fallback records: one record per given line, with
ids n + 1, n + 2, and so on in order. -/
def mk_records (req : ExerciseRequest) : Nat → List (List Char) → List Json
  | _, [] => []
  | n, l :: ls => fallback_record req n l :: mk_records req (n + 1) ls

theorem mk_records_length (req : ExerciseRequest) :
    ∀ (n : Nat) (ls : List (List Char)), (mk_records req n ls).length = ls.length := by
  intro n ls
  induction ls generalizing n with
  | nil => rfl
  | cons l ls ih => simp [mk_records, ih]

/-- The nonempty stripped forms of the given lines, in order. -/
def nonempty_lines (ls : List (List Char)) : List (List Char) :=
  (ls.map py_strip).filter (fun l => decide (l ≠ []))

theorem fallback_go_eq (req : ExerciseRequest) :
    ∀ (ls : List (List Char)) (n : Nat),
      fallback_go req ls n =
        mk_records req n ((nonempty_lines ls).take (req.exercise_count.toNat - n)) := by
  intro ls
  induction ls with
  | nil => intro n; simp [fallback_go, nonempty_lines, mk_records]
  | cons l ls ih =>
    intro n
    by_cases hline : py_strip l = []
    · have hneg : ¬(py_strip l ≠ [] ∧ (n : Int) < req.exercise_count) := fun hc => hc.1 hline
      simp only [fallback_go]
      rw [if_neg hneg, ih n]
      simp [nonempty_lines, hline]
    · by_cases hcnt : (n : Int) < req.exercise_count
      · have hsub : req.exercise_count.toNat - n = (req.exercise_count.toNat - (n + 1)) + 1 := by
          omega
        simp only [fallback_go]
        rw [if_pos ⟨hline, hcnt⟩, ih (n + 1)]
        simp [nonempty_lines, hline, hsub, mk_records]
      · have hsub : req.exercise_count.toNat - n = 0 := by omega
        have hneg : ¬(py_strip l ≠ [] ∧ (n : Int) < req.exercise_count) := fun hc => hcnt hc.2
        simp only [fallback_go]
        rw [if_neg hneg, ih n]
        simp [hsub, mk_records]

theorem create_fallback_eq (text : List Char) (req : ExerciseRequest) :
    create_fallback_exercises text req =
      mk_records req 0
        ((nonempty_lines (split_nl (py_strip text))).take req.exercise_count.toNat) := by
  unfold create_fallback_exercises
  rw [fallback_go_eq]
  simp

theorem create_fallback_length_le (text : List Char) (req : ExerciseRequest) :
    (create_fallback_exercises text req).length ≤ req.exercise_count.toNat := by
  rw [create_fallback_eq, mk_records_length, List.length_take]
  exact Nat.min_le_left _ _

/-! ### Unreachability of the AttributeError branch -/

theorem find_aux_drop {c : Char} :
    ∀ {l : List Char} {i : Nat}, find_aux c l = some i → ∃ t, l.drop i = c :: t := by
  intro l
  induction l with
  | nil => intro i h; cases h
  | cons x xs ih =>
    intro i h
    simp only [find_aux] at h
    by_cases hx : x = c
    · rw [if_pos hx] at h
      cases h
      exact ⟨xs, by simp [hx]⟩
    · rw [if_neg hx] at h
      cases hfind : find_aux c xs with
      | none => rw [hfind] at h; cases h
      | some j =>
        rw [hfind] at h
        simp only [Option.map_some'] at h
        obtain ⟨t, ht⟩ := ih hfind
        cases h
        exact ⟨t, by simpa using ht⟩

theorem parse_val_open_brace :
    ∀ {fuel : Nat} {cs rest : List Char} {v : Json},
      parse_val fuel ('{' :: cs) = some (v, rest) → ∃ kvs, v = Json.obj kvs := by
  intro fuel cs rest v h
  cases fuel with
  | zero => cases h
  | succ fuel =>
    simp only [parse_val] at h
    rw [show skip_ws ('{' :: cs) = '{' :: cs from rfl] at h
    dsimp only at h
    rw [if_pos rfl] at h
    split at h
    · split at h
      · cases h
        exact ⟨[], rfl⟩
      · split at h
        · cases h
          exact ⟨_, rfl⟩
        · cases h
    · cases h

theorem loads_open_brace {cs : List Char} {v : Json}
    (h : loads ('{' :: cs) = some v) : ∃ kvs, v = Json.obj kvs := by
  unfold loads at h
  cases hp : parse_val (('{' :: cs).length + 1) ('{' :: cs) with
  | none => rw [hp] at h; cases h
  | some pr =>
    obtain ⟨v1, rest⟩ := pr
    rw [hp] at h
    dsimp only at h
    by_cases hr : skip_ws rest = []
    · rw [if_pos hr] at h
      cases h
      exact parse_val_open_brace hp
    · rw [if_neg hr] at h
      cases h

theorem json_slice_shape {text s : List Char} (h : json_slice text = some s) :
    s = [] ∨ ∃ t, s = '{' :: t := by
  unfold json_slice at h
  cases hf : find_aux '{' text with
  | none => rw [hf] at h; cases h
  | some i =>
    cases hr : rfind_aux '}' text with
    | none => rw [hf, hr] at h; cases h
    | some j =>
      rw [hf, hr] at h
      dsimp only at h
      obtain ⟨t0, ht⟩ := find_aux_drop hf
      cases h
      rw [ht]
      cases hk : j + 1 - i with
      | zero => exact Or.inl rfl
      | succ k => exact Or.inr ⟨t0.take k, by simp⟩

/-- The parser never reaches the uncaught AttributeError of calling .get
on a non-dict value: whenever the brace slice parses, it parses as an
object, because the slice begins at an opening brace. -/
theorem parse_exercises_response_total (text : List Char) (req : ExerciseRequest) :
    (parse_exercises_response text req).isSome := by
  unfold parse_exercises_response
  cases hs : json_slice text with
  | none => rfl
  | some s =>
    rcases json_slice_shape hs with rfl | ⟨t, rfl⟩
    · rfl
    · cases hl : loads ('{' :: t) with
      | none =>
        dsimp only
        rw [hl]
        rfl
      | some v =>
        obtain ⟨kvs, rfl⟩ := loads_open_brace hl
        dsimp only
        rw [hl]
        rfl

/-- Concrete model output for the C2 counterexample: one JSON object whose
exercises list has two entries. -/
def c2_text : List Char := "\x7b\"exercises\": [1, 2]\x7d".data

/-- Concrete request asking for a single exercise. -/
def c2_req : ExerciseRequest :=
  { student_profile := w_student_profile, subject := "Mathematics", topic := "Basic Operations",
    difficulty_level := "beginner", exercise_count := 1, exercise_types := ["multiple_choice"] }

/-- Counterexample to claim C2: on the primary JSON path the parser does
not truncate, so a response with two exercises and exercise_count one
returns two records, exceeding the requested count. -/
theorem claim_C2_counterexample :
    parse_exercises_response c2_text c2_req = some (Json.arr [Json.num 1, Json.num 2]) ∧
    ¬((([Json.num 1, Json.num 2] : List Json).length : Int) ≤ c2_req.exercise_count) := by
  constructor
  · rfl
  · decide

/-- Claim C2 (amended): only the fallback path bounds the output by the
requested count; when the brace slice parses as a JSON object, the parser
returns the exercises value of that object in full, so its length can
exceed exercise_count. -/
theorem claim_C2_amended :
    ∀ (text : List Char) (req : ExerciseRequest),
      (∀ s kvs, json_slice text = some s → loads s = some (Json.obj kvs) →
        parse_exercises_response text req = some (py_dict_get kvs "exercises" (Json.arr []))) ∧
      ((json_slice text = none ∨ ∃ s, json_slice text = some s ∧ loads s = none) →
        ∃ l, parse_exercises_response text req = some (Json.arr l) ∧
          l.length ≤ req.exercise_count.toNat) := by
  intro text req
  constructor
  · intro s kvs hs hl
    unfold parse_exercises_response
    rw [hs]
    dsimp only
    rw [hl]
  · intro h
    rcases h with h | ⟨s, hs, hl⟩
    · refine ⟨create_fallback_exercises text req, ?_, create_fallback_length_le text req⟩
      unfold parse_exercises_response
      rw [h]
    · refine ⟨create_fallback_exercises text req, ?_, create_fallback_length_le text req⟩
      unfold parse_exercises_response
      rw [hs]
      dsimp only
      rw [hl]

/-- Concrete model output whose exercises list is empty. -/
def c2w_text : List Char := "\x7b\"exercises\": []\x7d".data

/-- Witness for the amended claim C2: a parsed object with an empty
exercises list is returned as is on the primary path. -/
theorem claim_C2_witness :
    parse_exercises_response c2w_text c2_req = some (Json.arr []) :=
  (claim_C2_amended c2w_text c2_req).1 c2w_text [("exercises", Json.arr [])] rfl rfl

/-- Claim C3: when the text is a brace-free prefix, one JSON object whose
slice parses, and a closing-brace-free suffix, the parser returns exactly
the entries of the exercises field unmodified, and the empty sequence when
the field is absent. -/
theorem claim_C3_json_roundtrip :
    ∀ (pre mid post : List Char) (kvs : List (String × Json)) (req : ExerciseRequest),
      '{' ∉ pre → '}' ∉ post →
      loads ('{' :: (mid ++ ['}'])) = some (Json.obj kvs) →
      (∀ entries : List Json,
        py_dict_get kvs "exercises" (Json.arr []) = Json.arr entries →
        (entries.length : Int) ≤ req.exercise_count →
        parse_exercises_response (pre ++ '{' :: (mid ++ '}' :: post)) req =
          some (Json.arr entries)) ∧
      (kvs.reverse.find? (fun p => p.1 = "exercises") = none →
        parse_exercises_response (pre ++ '{' :: (mid ++ '}' :: post)) req =
          some (Json.arr [])) := by
  intro pre mid post kvs req hpre hpost hloads
  have hs := json_slice_decomp pre mid post hpre hpost
  constructor
  · intro entries hget _
    unfold parse_exercises_response
    rw [hs]
    dsimp only
    rw [hloads]
    dsimp only
    rw [hget]
  · intro hfind
    unfold parse_exercises_response
    rw [hs]
    dsimp only
    rw [hloads]
    dsimp only
    unfold py_dict_get
    rw [hfind]

/-- Concrete text around the JSON object for the C3 witness. -/
def c3_pre : List Char := "json".data

/-- Concrete object body for the C3 witness. -/
def c3_mid : List Char := "\"exercises\": [1, 2]".data

/-- Concrete suffix for the C3 witness. -/
def c3_post : List Char := " end".data

/-- Concrete request asking for five exercises. -/
def c3_req : ExerciseRequest :=
  { student_profile := w_student_profile, subject := "Mathematics", topic := "Basic Operations",
    difficulty_level := "beginner", exercise_count := 5, exercise_types := ["multiple_choice"] }

/-- Witness for claim C3: a two-entry exercises object surrounded by junk
is returned exactly. -/
theorem claim_C3_witness :
    parse_exercises_response (c3_pre ++ '{' :: (c3_mid ++ '}' :: c3_post)) c3_req =
      some (Json.arr [Json.num 1, Json.num 2]) :=
  (claim_C3_json_roundtrip c3_pre c3_mid c3_post
      [("exercises", Json.arr [Json.num 1, Json.num 2])] c3_req
      (by decide) (by decide) rfl).1
    [Json.num 1, Json.num 2] rfl (by decide)

/-- Claim C4: on text without a brace pair the parser falls back to the
line splitter: the nonempty stripped lines of the stripped text, cut off
at exercise_count, each yield one synthesized record, with ids sequential
from one, the line as question, the first requested type or short_answer,
and the fixed placeholder answer and explanation strings (see
fallback_record and mk_records). -/
theorem claim_C4_fallback :
    ∀ (text : List Char) (req : ExerciseRequest),
      ('{' ∉ text ∨ '}' ∉ text) →
      parse_exercises_response text req =
        some (Json.arr (mk_records req 0
          ((nonempty_lines (split_nl (py_strip text))).take req.exercise_count.toNat))) := by
  intro text req h
  unfold parse_exercises_response
  rw [json_slice_none h]
  dsimp only
  rw [create_fallback_eq]

/-- Concrete plain-text model output with five nonempty lines. -/
def c4_text : List Char := "Q1 one\nQ2 two\n\n Q3 three \nQ4 four\nQ5 five".data

/-- Concrete request asking for three exercises with no requested types. -/
def c4_req : ExerciseRequest :=
  { student_profile := w_student_profile, subject := "Mathematics", topic := "Basic Operations",
    difficulty_level := "beginner", exercise_count := 3, exercise_types := [] }

/-- Witness for claim C4: five nonempty lines with exercise_count three
yield exactly three records with ids one, two, three. -/
theorem claim_C4_witness :
    parse_exercises_response c4_text c4_req =
      some (Json.arr
        [fallback_record c4_req 0 "Q1 one".data,
         fallback_record c4_req 1 "Q2 two".data,
         fallback_record c4_req 2 "Q3 three".data]) := by
  rw [claim_C4_fallback c4_text c4_req (Or.inl (by decide))]
  rfl
